import Mathlib

/-!
Verification of the agent-gateway core: a shallow embedding of the
content model, mailbox, error mapper, normalizer and provider adapters
from `src/gateway`, with theorems about their behaviour.
-/

namespace Gateway

/-! ### Python value model

Message `content`, request metadata and parsed JSON bodies are dynamically
typed Python values (str / int / bool / None / list / dict).  `PyVal` is
their shallow embedding; dict keys are strings, as everywhere in the code.
-/

inductive PyVal where
  | str (s : String)
  | int (n : Int)
  | bool (b : Bool)
  | none
  | list (xs : List PyVal)
  | dict (kvs : List (String × PyVal))
deriving Repr

/-- `d.get(k)`: first value bound to `k` in a dict's entry list. -/
def dictGet (kvs : List (String × PyVal)) (k : String) : Option PyVal :=
  (kvs.find? (fun p => p.1 == k)).map (fun p => p.2)

/-- `k in d`: key containment test. -/
def hasKey (kvs : List (String × PyVal)) (k : String) : Bool :=
  kvs.any (fun p => p.1 == k)

/-- Python truthiness of a value (`if v:`). -/
def truthy : PyVal → Bool
  | .str s => !s.isEmpty
  | .int n => n != 0
  | .bool b => b
  | .none => false
  | .list xs => !xs.isEmpty
  | .dict kvs => !kvs.isEmpty

mutual

/-- Python `str(v)`.  String escaping inside `repr` is elided (the
embedding only feeds it printable text without quotes or backslashes). -/
def pyStr : PyVal → String
  | .str s => s
  | .int n => toString n
  | .bool b => if b then "True" else "False"
  | .none => "None"
  | .list xs => "[" ++ String.intercalate ", " (pyReprList xs) ++ "]"
  | .dict kvs => "\x7b" ++ String.intercalate ", " (pyReprDict kvs) ++ "\x7d"

/-- Python `repr(v)`, as used by `str` on containers. -/
def pyRepr : PyVal → String
  | .str s => "'" ++ s ++ "'"
  | .int n => toString n
  | .bool b => if b then "True" else "False"
  | .none => "None"
  | .list xs => "[" ++ String.intercalate ", " (pyReprList xs) ++ "]"
  | .dict kvs => "\x7b" ++ String.intercalate ", " (pyReprDict kvs) ++ "\x7d"

def pyReprList : List PyVal → List String
  | [] => []
  | x :: xs => pyRepr x :: pyReprList xs

def pyReprDict : List (String × PyVal) → List String
  | [] => []
  | kv :: kvs => ("'" ++ kv.1 ++ "': " ++ pyRepr kv.2) :: pyReprDict kvs

end

/-! ### Content model (`src/gateway/models.py`) -/

/-- Chat roles supported by the gateway (`Role`). -/
inductive Role where
  | system
  | user
  | assistant
  | tool
  | developer
deriving Repr, DecidableEq

/-- `Role.value`: the string value of the enum member. -/
def Role.value : Role → String
  | .system => "system"
  | .user => "user"
  | .assistant => "assistant"
  | .tool => "tool"
  | .developer => "developer"

/-- Tail of the dict branch of `_flatten_content_to_text`: the
image / audio / type placeholders and the `str(content)` fallback. -/
def flattenDictRest (kvs : List (String × PyVal)) : String :=
  if hasKey kvs "image_base64" || hasKey kvs "image" then "<image>"
  else
    let audio_field :=
      if truthy ((dictGet kvs "audio").getD .none) then (dictGet kvs "audio").getD .none
      else (dictGet kvs "audio_base64").getD .none
    if truthy audio_field then "<audio>"
    else if hasKey kvs "type" then "<" ++ pyStr ((dictGet kvs "type").getD .none) ++ ">"
    else pyStr (.dict kvs)

mutual

/-- `_flatten_content_to_text` from `models.py`: best-effort textual
projection of message content.  In the `image_url` branch the source
returns the raw `url` value (a string in all typed uses); the embedding
renders it with `pyStr`. -/
def _flatten_content_to_text : PyVal → String
  | .str s => s
  | .list xs =>
      String.intercalate "\n" ((flattenEach xs).filter (fun p => !p.isEmpty))
  | .dict kvs =>
      match dictGet kvs "text" with
      | some (.str t) => t
      | some (.list ts) =>
          String.intercalate "\n" ((ts.filter (fun item => truthy item)).map pyStr)
      | _ =>
          match dictGet kvs "image_url" with
          | some (.dict iu) =>
              if truthy ((dictGet iu "url").getD .none) then
                pyStr ((dictGet iu "url").getD .none)
              else flattenDictRest kvs
          | _ => flattenDictRest kvs
  | .int n => pyStr (.int n)
  | .bool b => pyStr (.bool b)
  | .none => pyStr .none

/-- The generator expression `(_flatten_content_to_text(entry) for entry in content)`. -/
def flattenEach : List PyVal → List String
  | [] => []
  | x :: xs => _flatten_content_to_text x :: flattenEach xs

end

/-- `Message`: generic message representation. -/
structure Message where
  role : Role
  content : PyVal
  name : Option String
  metadata : Option PyVal
deriving Repr

/-- `Message.as_text`. -/
def Message.as_text (m : Message) : String :=
  _flatten_content_to_text m.content

/-- `AgentEnvelope`: payload for inter-agent messaging. -/
structure AgentEnvelope where
  conversation_id : String
  sender_agent_id : String
  recipient_agent_id : String
  payload : List (String × PyVal)
deriving Repr

/-! ### Agent mailbox (`src/gateway/services/agent_bus.py`)

The queues dict (`defaultdict(deque)`) is embedded as a total function
from string keys to lists; a missing key and an empty deque are both the
empty list, matching `publish`'s defaultdict access and `consume`'s
`if not queue` test. -/

/-- In-memory agent messaging bus state. -/
structure AgentBus where
  queues : String → List AgentEnvelope
  max_messages : Nat

/-- `AgentBus.__init__` (fresh bus, all queues empty). -/
def AgentBus.init (max_messages : Nat) : AgentBus :=
  ⟨fun _ => [], max_messages⟩

/-- `AgentBus._queue_key`. -/
def AgentBus.queue_key (agent_id : String) (conversation_id : String) : String :=
  agent_id ++ ":" ++ conversation_id

/-- The `while len(queue) > self._max_messages: queue.popleft()` loop of
`publish`. -/
def trimFront (max_messages : Nat) : List AgentEnvelope → List AgentEnvelope
  | [] => []
  | e :: q => if q.length + 1 > max_messages then trimFront max_messages q else e :: q

/-- `AgentBus.publish`: append to the recipient/conversation queue, then
evict from the front while over the configured bound. -/
def AgentBus.publish (bus : AgentBus) (envelope : AgentEnvelope) : AgentBus :=
  let key := AgentBus.queue_key envelope.recipient_agent_id envelope.conversation_id
  let queue := trimFront bus.max_messages (bus.queues key ++ [envelope])
  ⟨fun k => if k = key then queue else bus.queues k, bus.max_messages⟩

/-- `AgentBus.consume`: drain and return the whole queue for the key. -/
def AgentBus.consume (bus : AgentBus) (agent_id : String) (conversation_id : String) :
    List AgentEnvelope × AgentBus :=
  let key := AgentBus.queue_key agent_id conversation_id
  let queue := bus.queues key
  if queue.isEmpty then ([], bus)
  else (queue, ⟨fun k => if k = key then [] else bus.queues k, bus.max_messages⟩)

/-! ### Error mapping (`src/gateway/api/errors.py`)

`ProviderNotConfiguredError` and `ProviderError` are sibling subclasses of
`RuntimeError` (`providers/base.py`); every other exception falls in the
final catch-all. -/

/-- The exceptions that can reach `map_exception`. -/
inductive GatewayExc where
  | providerNotConfigured (message : String)
  | providerError (message : String) (status_code : Option Int)
      (provider_request_id : Option String)
  | other (message : String)
deriving Repr, DecidableEq

/-- `str(exc)` for the modelled exceptions. -/
def GatewayExc.message : GatewayExc → String
  | .providerNotConfigured m => m
  | .providerError m _ _ => m
  | .other m => m

/-- The `HTTPException` produced by `map_exception`, flattened to its
status code and the fields of its error-detail dict. -/
structure MappedError where
  status_code : Nat
  message : String
  code : String
  provider : Option String
  upstream_status : Option Int
  provider_request_id : Option String
deriving Repr, DecidableEq

/-- Truthiness of `exc.status_code` in `exc.status_code and exc.status_code >= 500`. -/
def statusTruthy : Option Int → Bool
  | some n => n != 0
  | Option.none => false

/-- `map_exception` from `api/errors.py`. -/
def map_exception (exc : GatewayExc) (provider : Option String) : MappedError :=
  match exc with
  | .providerNotConfigured msg =>
      ⟨424, msg, "provider_not_configured", provider, Option.none, Option.none⟩
  | .providerError msg status_code provider_request_id =>
      let code :=
        if status_code = some 401 ∨ status_code = some 403 then "upstream_auth_error"
        else if status_code = some 429 then "upstream_rate_limited"
        else if statusTruthy status_code ∧ (status_code.getD 0) ≥ 500 then
          "upstream_unavailable"
        else "provider_error"
      let http_status := if status_code = some 429 then 429 else 502
      ⟨http_status, msg, code, provider, status_code, provider_request_id⟩
  | .other msg =>
      ⟨500, msg, "internal_error", provider, Option.none, Option.none⟩

/-! ### JSON serialization (`json.dumps(data, separators=(",", ":"))`)

Compact serialization as used by `sse.format_event`.  Escaping covers the
quote, backslash and common control characters; the payloads the gateway
serializes contain only such text (full `ensure_ascii` hex escaping is
not needed by any property proved here). -/

/-- Escape one character for a JSON string literal. -/
def jsonEscapeChar (c : Char) : String :=
  if c = '"' then "\\\""
  else if c = '\\' then "\\\\"
  else if c = '\n' then "\\n"
  else if c = '\r' then "\\r"
  else if c = '\t' then "\\t"
  else String.singleton c

/-- Escape a JSON string body. -/
def jsonEscape (s : String) : String :=
  String.join (s.data.map jsonEscapeChar)

mutual

/-- `json.dumps(v, separators=(",", ":"))`. -/
def jsonDumps : PyVal → String
  | .str s => "\"" ++ jsonEscape s ++ "\""
  | .int n => toString n
  | .bool b => if b then "true" else "false"
  | .none => "null"
  | .list xs => "[" ++ String.intercalate "," (jsonDumpsList xs) ++ "]"
  | .dict kvs => "\x7b" ++ String.intercalate "," (jsonDumpsDict kvs) ++ "\x7d"

def jsonDumpsList : List PyVal → List String
  | [] => []
  | x :: xs => jsonDumps x :: jsonDumpsList xs

def jsonDumpsDict : List (String × PyVal) → List String
  | [] => []
  | kv :: kvs => ("\"" ++ jsonEscape kv.1 ++ "\":" ++ jsonDumps kv.2) :: jsonDumpsDict kvs

end

/-! ### SSE helpers (`src/gateway/api/sse.py`) -/

/-- `format_event`: one Server-Sent-Event line pair. -/
def format_event (event : String) (data : PyVal) : String :=
  "event: " ++ event ++ "\ndata: " ++ jsonDumps data ++ "\n\n"

/-! ### Chat request / response (`src/gateway/models.py`) -/

/-- `ChatRequest`: the adapter-agnostic request. -/
structure ChatRequest where
  provider : String
  model : String
  messages : List Message
  temperature : Option PyVal
  max_tokens : Option Int
  metadata : Option (List (String × PyVal))
  conversation_id : Option String
  agent_id : Option String
deriving Repr

/-- `ChatResponse`: the normalized provider response.  `usage` is kept as
a raw value (`data.get("usage", {})` in the adapters). -/
structure ChatResponse where
  provider : String
  model : String
  output_text : String
  usage : PyVal
  trace_id : String
  conversation_id : Option String
  agent_id : Option String
  provider_request_id : Option String
deriving Repr

/-! ### Synthesized stream (`create_response.event_generator`, `routes.py`) -/

/-- `created_payload` of `event_generator`. -/
def created_payload (response_id : String) (created_at : Int) (response : ChatResponse) :
    PyVal :=
  .dict
    [("type", .str "response.created"),
     ("response", .dict
        [("id", .str response_id),
         ("object", .str "response"),
         ("model", .str response.model),
         ("created", .int created_at),
         ("usage", if truthy response.usage then response.usage else .dict [])])]

/-- `delta_payload` of `event_generator`. -/
def delta_payload (response_id : String) (trace_id : String) (response : ChatResponse) :
    PyVal :=
  .dict
    [("type", .str "response.output_text.delta"),
     ("response_id", .str response_id),
     ("output_text", .list [.str response.output_text]),
     ("trace_id", .str trace_id)]

/-- `completed_payload` of `event_generator`. -/
def completed_payload (response_id : String) (trace_id : String) (response : ChatResponse) :
    PyVal :=
  .dict
    [("type", .str "response.completed"),
     ("response", .dict
        [("id", .str response_id),
         ("object", .str "response"),
         ("model", .str response.model),
         ("output_text", .list [.str response.output_text]),
         ("usage", if truthy response.usage then response.usage else .dict [])]),
     ("trace_id", .str trace_id)]

/-- `event_generator`: the synthesized-stream body, as the list of SSE
strings it yields in order. -/
def event_generator (response_id : String) (created_at : Int) (trace_id : String)
    (response : ChatResponse) : List String :=
  [format_event "response.created" (created_payload response_id created_at response),
   format_event "response.output_text.delta" (delta_payload response_id trace_id response),
   format_event "response.completed" (completed_payload response_id trace_id response)]

/-! ### Request normalization (`src/gateway/api/routes.py`) -/

/-- Route-module constants. -/
def MAX_REQUEST_BYTES : Nat := 256000

def MAX_INPUT_TOKENS : Nat := 6000

/-- Python `str.lower()` (character-wise). -/
def strLower (s : String) : String :=
  String.mk (s.toList.map Char.toLower)

/-- `_parse_model_identifier`: split a `provider:model` identifier at the
first separator (`model.split(":", 1)`), case-folding the provider. -/
def _parse_model_identifier (model : String) (default_provider : String) :
    String × String :=
  if model.toList.contains ':' then
    let provider := String.mk (model.toList.takeWhile (fun c => c ≠ ':'))
    let upstream := String.mk ((model.toList.dropWhile (fun c => c ≠ ':')).tail)
    (strLower provider, upstream)
  else (default_provider, model)

/-- `_is_structured_chunk`. -/
def _is_structured_chunk : PyVal → Bool
  | .dict kvs =>
      hasKey kvs "type" || hasKey kvs "image_url" ||
        hasKey kvs "image_base64" || hasKey kvs "image"
  | _ => false

/-- Loop body of the text-only branch of `_normalize_content`:
`str(item["text"])` for a dict carrying `text`, else `str(item)`. -/
def chunkText (item : PyVal) : String :=
  match item with
  | .dict kvs =>
      if hasKey kvs "text" then pyStr ((dictGet kvs "text").getD .none)
      else pyStr (.dict kvs)
  | v => pyStr v

/-- `_normalize_content`. -/
def _normalize_content : PyVal → PyVal
  | .str s => .str s
  | .list entries =>
      if entries.any _is_structured_chunk then .list entries
      else .str (String.intercalate "\n" (entries.map chunkText))
  | .dict kvs =>
      if _is_structured_chunk (.dict kvs) then .dict kvs
      else if hasKey kvs "text" then .str (pyStr ((dictGet kvs "text").getD .none))
      else .str (pyStr (.dict kvs))
  | v => .str (pyStr v)

/-- `ResponseInputMessage` (`api/schemas.py`). -/
structure ResponseInputMessage where
  role : Role
  content : PyVal
deriving Repr

/-- `ResponseRequest` (`api/schemas.py`); `stream` is validated to `True`
at the boundary and carries no information afterwards. -/
structure ResponseRequest where
  model : String
  input : List ResponseInputMessage
  temperature : Option PyVal
  max_output_tokens : Option Int
  response_format : Option PyVal
  reasoning : Option PyVal
  metadata : Option (List (String × PyVal))
deriving Repr

/-- `_convert_message`. -/
def _convert_message (message : ResponseInputMessage) : Message :=
  ⟨message.role, _normalize_content message.content, Option.none, Option.none⟩

/-- Python dict assignment `d[k] = v` on an insertion-ordered dict. -/
def dictSet (kvs : List (String × PyVal)) (k : String) (v : PyVal) :
    List (String × PyVal) :=
  if hasKey kvs k then kvs.map (fun p => if p.1 == k then (p.1, v) else p)
  else kvs ++ [(k, v)]

/-- `_to_chat_request`. -/
def _to_chat_request (payload : ResponseRequest) (provider : String)
    (upstream_model : String) : ChatRequest :=
  let messages := payload.input.map _convert_message
  let metadata := (payload.metadata).getD []
  let metadata :=
    match payload.reasoning with
    | some r => if truthy r then dictSet metadata "reasoning" r else metadata
    | Option.none => metadata
  let metadata :=
    match payload.response_format with
    | some rf => if truthy rf then dictSet metadata "response_format" rf else metadata
    | Option.none => metadata
  ⟨provider, upstream_model, messages, payload.temperature, payload.max_output_tokens,
    if metadata.isEmpty then Option.none else some metadata, Option.none, Option.none⟩

/-- The `HTTPException` raised by `_guard_body_size`. -/
def body_too_large_error : MappedError :=
  ⟨413, "Request body too large", "body_too_large", Option.none, Option.none, Option.none⟩

/-- The `HTTPException` raised by `_guard_token_budget`. -/
def input_too_large_error : MappedError :=
  ⟨413, "Input too large for configured token budget", "input_too_large",
    Option.none, Option.none, Option.none⟩

/-- `_estimate_tokens`: total flattened character count over four. -/
def _estimate_tokens (messages : List Message) : Nat :=
  (messages.foldl
    (fun total_chars msg =>
      let text := msg.as_text
      if !text.isEmpty then total_chars + text.length else total_chars)
    0) / 4

/-- Outcome of `create_response`: either the synthesized SSE stream or
the native OpenAI passthrough branch (modelled opaquely; its internals
are stateful streaming outside the claims proved here). -/
inductive ResponseOutcome where
  | synthesized (events : List String)
  | openaiPassthrough
deriving Repr

/-- The `create_response` route body (`routes.py` lines 75-168), with the
adapter call `gateway.chat` abstracted as the function argument `chat`:
body-size guard, model-identifier parsing, request conversion, token
guard, then provider dispatch.  Observability-only work (tracing, timing,
logging) has no effect on the result and is omitted. -/
def create_response (chat : ChatRequest → Except GatewayExc ChatResponse)
    (bytes_in : Nat) (payload : ResponseRequest) (default_provider : String)
    (trace_id : String) (response_id : String) (created_at : Int) :
    Except MappedError ResponseOutcome :=
  if bytes_in > MAX_REQUEST_BYTES then .error body_too_large_error
  else
    let parsed := _parse_model_identifier payload.model default_provider
    let provider_name := parsed.1
    let upstream_model := parsed.2
    let chat_request := _to_chat_request payload provider_name upstream_model
    if _estimate_tokens chat_request.messages > MAX_INPUT_TOKENS then
      .error input_too_large_error
    else if provider_name = "openai" then .ok .openaiPassthrough
    else
      match chat chat_request with
      | .error exc => .error (map_exception exc (some provider_name))
      | .ok response =>
          .ok (.synthesized (event_generator response_id created_at trace_id response))

/-- Provider resolution inside `GatewayService.chat`
(`services/gateway.py` lines 43-47): fall back to the default provider on
an empty name, then look the name up in the registry (case-insensitively,
`ProviderRegistry.get` lowers the key); an unknown name raises a bare
`ProviderError`. -/
def resolve_provider (request_provider : String) (default_provider : String)
    (registered : List String) : Except GatewayExc String :=
  let provider_name :=
    if request_provider = "" then default_provider else request_provider
  if registered.contains (strLower provider_name) then .ok (strLower provider_name)
  else
    .error (.providerError ("Provider '" ++ provider_name ++ "' is not registered")
      Option.none Option.none)

/-! ### Network-backed adapters (`src/gateway/providers/{openai,gemini,claude}.py`)

Each adapter is embedded as a function of the credentials, the chat
request and the upstream HTTP response (the transport call itself is the
environment).  `body` is the parsed JSON object of `response.json()`. -/

/-- An upstream HTTP response as the adapters observe it. -/
structure UpstreamResponse where
  status_code : Nat
  headers : List (String × String)
  body : List (String × PyVal)
  text : String
deriving Repr

/-- `response.headers.get(name)`: httpx header lookup is
case-insensitive. -/
def headerGet (headers : List (String × String)) (nm : String) : Option String :=
  (headers.find? (fun p => strLower p.1 == strLower nm)).map (fun p => p.2)

/-- Python `a or b` over optional header strings (`None` and `""` are
falsy). -/
def strOr (a : Option String) (b : Option String) : Option String :=
  match a with
  | some s => if s.isEmpty then b else some s
  | Option.none => b

/-- `item.get("text", "")`, rendered as text (the typed upstream
responses carry strings here). -/
def getTextDefault (kvs : List (String × PyVal)) : String :=
  match dictGet kvs "text" with
  | some (.str s) => s
  | some v => pyStr v
  | Option.none => ""

/-- One item's contribution to `collected` in
`openai._extract_output_text`. -/
def outputItemText (item : PyVal) : String :=
  match item with
  | .dict kvs =>
      match dictGet kvs "type" with
      | some (.str "output_text") => getTextDefault kvs
      | some (.str "message") =>
          let message_payload :=
            match dictGet kvs "message" with
            | some (.dict m) => if m.isEmpty then kvs else m
            | _ => kvs
          let contents :=
            match dictGet message_payload "content" with
            | some (.list cs) => cs
            | _ => []
          String.join (contents.map (fun content =>
            match content with
            | .dict ckvs =>
                match dictGet ckvs "type" with
                | some (.str t) =>
                    if t = "output_text" ∨ t = "text" then getTextDefault ckvs else ""
                | _ => ""
            | _ => ""))
      | _ => ""
  | _ => ""

/-- `openai._extract_output_text`. -/
def _extract_output_text (payload : List (String × PyVal)) : String :=
  match dictGet payload "output_text" with
  | some (.list chunks) => String.join (chunks.map pyStr)
  | _ =>
      let output_items :=
        match dictGet payload "output" with
        | some (.list items) => items
        | _ => []
      String.join (output_items.map outputItemText)

/-- `OpenAIProvider.chat` (response-handling half; the request payload it
posts does not influence any property proved here). -/
def OpenAIProvider.chat (api_key : Option String) (request : ChatRequest)
    (trace_id : String) (response : UpstreamResponse) : Except GatewayExc ChatResponse :=
  if api_key.getD "" = "" then
    .error (.providerNotConfigured "OPENAI_KEY is not configured")
  else if response.status_code ≥ 400 then
    .error (.providerError
      ("OpenAI error " ++ toString response.status_code ++ ": " ++ response.text)
      (some (response.status_code : Int)) (headerGet response.headers "x-request-id"))
  else
    let data := response.body
    .ok ⟨"openai", request.model, _extract_output_text data,
      (dictGet data "usage").getD (.dict []), trace_id,
      request.conversation_id, request.agent_id,
      headerGet response.headers "x-request-id"⟩

namespace Gemini

/-- `gemini.DEFAULT_GEMINI_MODEL`. -/
def DEFAULT_GEMINI_MODEL : String := "gemini-2.5-pro-preview-03-25"

/-- `gemini._normalize_model` (`removeprefix("models/")`). -/
def _normalize_model (model_name : String) : String :=
  if ("models/".toList).isPrefixOf model_name.toList then
    String.mk (model_name.toList.drop 7)
  else model_name

/-- `gemini._provider_request_id`: header names tried in priority
order. -/
def _provider_request_id (response : UpstreamResponse) : Option String :=
  strOr (headerGet response.headers "x-request-id")
    (strOr (headerGet response.headers "x-goog-request-id")
      (headerGet response.headers "x-cloud-trace-context"))

/-- `gemini._truncate`. -/
def _truncate (text : String) : String :=
  if text.length ≤ 2000 then text
  else text.take 2000 ++ "...[truncated " ++ toString (text.length - 2000) ++ " chars]"

/-- `GeminiProvider.chat` (response-handling half; transport-level
timeout/connect failures raise before a response exists and are outside
this embedding). -/
def chat (api_key : Option String) (request : ChatRequest) (trace_id : String)
    (response : UpstreamResponse) : Except GatewayExc ChatResponse :=
  if api_key.getD "" = "" then
    .error (.providerNotConfigured "GEMINI_KEY is not configured")
  else
    let model_name :=
      _normalize_model (if request.model = "" then DEFAULT_GEMINI_MODEL else request.model)
    if response.status_code ≥ 400 then
      .error (.providerError
        ("Gemini error " ++ toString response.status_code ++ ": " ++ _truncate response.text)
        (some (response.status_code : Int)) (_provider_request_id response))
    else
      let data := response.body
      let candidates :=
        match dictGet data "candidates" with
        | some (.list cs) => cs
        | _ => []
      let output_text :=
        match candidates with
        | [] => ""
        | c0 :: _ =>
            let parts :=
              match c0 with
              | .dict c0kvs =>
                  match dictGet c0kvs "content" with
                  | some (.dict content) =>
                      match dictGet content "parts" with
                      | some (.list ps) => ps
                      | _ => []
                  | _ => []
              | _ => []
            String.join (parts.map (fun part =>
              match part with
              | .dict pkvs => getTextDefault pkvs
              | _ => ""))
      .ok ⟨"gemini", model_name, output_text,
        (dictGet data "usageMetadata").getD (.dict []), trace_id,
        request.conversation_id, request.agent_id, Option.none⟩

end Gemini

namespace Claude

/-- `claude._provider_request_id`: header names tried in priority
order. -/
def _provider_request_id (response : UpstreamResponse) : Option String :=
  strOr (headerGet response.headers "x-request-id")
    (strOr (headerGet response.headers "anthropic-request-id")
      (headerGet response.headers "x-cloud-trace-context"))

/-- `claude._truncate`. -/
def _truncate (text : String) : String :=
  if text.length ≤ 2000 then text
  else text.take 2000 ++ "...[truncated " ++ toString (text.length - 2000) ++ " chars]"

/-- `ClaudeProvider.chat` (response-handling half). -/
def chat (api_key : Option String) (request : ChatRequest) (trace_id : String)
    (response : UpstreamResponse) : Except GatewayExc ChatResponse :=
  if api_key.getD "" = "" then
    .error (.providerNotConfigured "CLAUDE_KEY is not configured")
  else if response.status_code ≥ 400 then
    .error (.providerError
      ("Claude error " ++ toString response.status_code ++ ": " ++ _truncate response.text)
      (some (response.status_code : Int)) (_provider_request_id response))
  else
    let data := response.body
    let content :=
      match dictGet data "content" with
      | some (.list blocks) => blocks
      | _ => []
    let output_text :=
      String.join (content.map (fun block =>
        match block with
        | .dict bkvs => getTextDefault bkvs
        | _ => ""))
    .ok ⟨"claude", request.model, output_text,
      (dictGet data "usage").getD (.dict []), trace_id,
      request.conversation_id, request.agent_id, Option.none⟩

end Claude

/-! ## Theorems -/

/-- The eviction loop leaves the last `max_messages` entries: it equals
dropping the excess from the front. -/
theorem trimFront_eq_drop (m : Nat) (q : List AgentEnvelope) :
    trimFront m q = q.drop (q.length - m) := by
  induction q with
  | nil => simp [trimFront]
  | cons e q ih =>
      by_cases h : q.length + 1 > m
      · rw [trimFront, if_pos h, ih]
        have hlen : (e :: q).length - m = (q.length - m) + 1 := by
          simp only [List.length_cons]; omega
        rw [hlen, List.drop_succ_cons]
      · rw [trimFront, if_neg h]
        have hlen : (e :: q).length - m = 0 := by
          simp only [List.length_cons]; omega
        rw [hlen, List.drop_zero]

/-- `publish` does not change the configured bound. -/
theorem publish_max_messages (bus : AgentBus) (e : AgentEnvelope) :
    (bus.publish e).max_messages = bus.max_messages := rfl

/-- Folding `publish` does not change the configured bound. -/
theorem foldl_publish_max_messages (es : List AgentEnvelope) (bus : AgentBus) :
    (es.foldl AgentBus.publish bus).max_messages = bus.max_messages := by
  induction es generalizing bus with
  | nil => rfl
  | cons e es ih => rw [List.foldl_cons, ih, publish_max_messages]

/-- `publish` rewrites the recipient's queue to the trimmed extension. -/
theorem publish_queues_self (bus : AgentBus) (e : AgentEnvelope) :
    (bus.publish e).queues (AgentBus.queue_key e.recipient_agent_id e.conversation_id) =
      trimFront bus.max_messages
        (bus.queues (AgentBus.queue_key e.recipient_agent_id e.conversation_id) ++ [e]) := by
  simp [AgentBus.publish]

/-- `publish` leaves every other key's queue untouched. -/
theorem publish_queues_other (bus : AgentBus) (e : AgentEnvelope) (k : String)
    (h : k ≠ AgentBus.queue_key e.recipient_agent_id e.conversation_id) :
    (bus.publish e).queues k = bus.queues k := by
  simp [AgentBus.publish, h]

/-- After publishing a same-key batch, the queue holds the suffix of the
old queue followed by the batch, truncated from the front to the bound. -/
theorem foldl_publish_queues (r c : String) (es : List AgentEnvelope) (bus : AgentBus)
    (hkeys : ∀ e ∈ es,
      AgentBus.queue_key e.recipient_agent_id e.conversation_id = AgentBus.queue_key r c)
    (hlen : (bus.queues (AgentBus.queue_key r c)).length ≤ bus.max_messages) :
    (es.foldl AgentBus.publish bus).queues (AgentBus.queue_key r c) =
      (bus.queues (AgentBus.queue_key r c) ++ es).drop
        ((bus.queues (AgentBus.queue_key r c)).length + es.length - bus.max_messages) := by
  induction es using List.reverseRecOn with
  | nil =>
      simp only [List.foldl_nil, List.append_nil, List.length_nil, Nat.add_zero]
      rw [Nat.sub_eq_zero_of_le hlen, List.drop_zero]
  | append_singleton es e ih =>
      have hkeys' : ∀ x ∈ es,
          AgentBus.queue_key x.recipient_agent_id x.conversation_id =
            AgentBus.queue_key r c := by
        intro x hx; exact hkeys x (List.mem_append_left _ hx)
      have hke : AgentBus.queue_key e.recipient_agent_id e.conversation_id =
          AgentBus.queue_key r c := hkeys e (List.mem_append_right _ (List.mem_singleton_self e))
      have hprev := ih hkeys'
      set q0 := bus.queues (AgentBus.queue_key r c) with hq0
      set m := bus.max_messages with hm
      set d := q0.length + es.length - m with hdd
      rw [List.foldl_append, List.foldl_cons, List.foldl_nil]
      rw [← hke, publish_queues_self, hke, foldl_publish_max_messages, ← hm, hprev]
      rw [trimFront_eq_drop]
      have hdle : d ≤ (q0 ++ es).length := by
        simp only [List.length_append]; omega
      rw [← List.drop_append_of_le_length hdle, List.drop_drop]
      rw [List.append_assoc] at *
      congr 1
      simp only [List.length_append, List.length_drop, List.length_cons, List.length_nil]
      omega

/-- Publishing caps the recipient's queue at the configured bound. -/
theorem publish_queue_length_le (bus : AgentBus) (e : AgentEnvelope) :
    ((bus.publish e).queues
      (AgentBus.queue_key e.recipient_agent_id e.conversation_id)).length ≤
      bus.max_messages := by
  rw [publish_queues_self, trimFront_eq_drop, List.length_drop]
  omega

/-- C3 (counterexample): on a mailbox configured with maximum depth 0 the
round-trip fails — the queue for ("a", "c") is empty, yet publishing an
envelope for it and consuming returns `[]`, not the published envelope. -/
theorem mailbox_round_trip_cex :
    ((((AgentBus.init 0).publish ⟨"c", "s", "a", []⟩).consume "a" "c").1 = []) ∧
    ((AgentBus.init 0).queues (AgentBus.queue_key "a" "c") = []) ∧
    (([] : List AgentEnvelope) ≠ [⟨"c", "s", "a", []⟩]) :=
  ⟨rfl, rfl, by simp⟩

/-- C3 (amended): provided the configured maximum queue depth is at least
one, for every mailbox state whose queue for (a, c) is empty, publishing an
envelope addressed to (a, c) and then consuming (a, c) returns exactly that
envelope, and a second immediate consume returns the empty list. -/
theorem mailbox_round_trip (bus : AgentBus) (a c : String) (e : AgentEnvelope)
    (hq : bus.queues (AgentBus.queue_key a c) = [])
    (hmax : 1 ≤ bus.max_messages)
    (hr : e.recipient_agent_id = a) (hc : e.conversation_id = c) :
    ((bus.publish e).consume a c).1 = [e] ∧
    ((((bus.publish e).consume a c).2).consume a c).1 = [] := by
  have hkey : AgentBus.queue_key e.recipient_agent_id e.conversation_id =
      AgentBus.queue_key a c := by rw [hr, hc]
  have h1 : (bus.publish e).queues (AgentBus.queue_key a c) = [e] := by
    rw [← hkey, publish_queues_self, hkey, hq]
    simp only [List.nil_append, trimFront, List.length_nil]
    rw [if_neg (by omega)]
  have h2 : (bus.publish e).consume a c = ([e], ⟨fun k =>
      if k = AgentBus.queue_key a c then [] else (bus.publish e).queues k,
      (bus.publish e).max_messages⟩) := by
    rw [AgentBus.consume]
    simp [h1]
  refine ⟨by rw [h2], ?_⟩
  rw [h2]
  simp [AgentBus.consume]

/-- C3 (witness). -/
theorem mailbox_round_trip_witness :
    ((((AgentBus.init 100).publish ⟨"c1", "s", "a", []⟩).consume "a" "c1").1 =
      [⟨"c1", "s", "a", []⟩]) ∧
    (((((AgentBus.init 100).publish ⟨"c1", "s", "a", []⟩).consume "a" "c1").2).consume
      "a" "c1").1 = [] :=
  mailbox_round_trip (AgentBus.init 100) "a" "c1" ⟨"c1", "s", "a", []⟩ rfl
    (by decide) rfl rfl

/-- C4: with configured depth N, publishing N+1 same-key envelopes into an
empty queue leaves exactly the most recent N in FIFO order (the oldest is
discarded), and after any publish the recipient queue's length never
exceeds the configured bound. -/
theorem mailbox_bound (N : Nat) (r c : String) (es : List AgentEnvelope) (bus : AgentBus)
    (hmax : bus.max_messages = N)
    (hq : bus.queues (AgentBus.queue_key r c) = [])
    (hlen : es.length = N + 1)
    (hkeys : ∀ e ∈ es, e.recipient_agent_id = r ∧ e.conversation_id = c) :
    ((es.foldl AgentBus.publish bus).queues (AgentBus.queue_key r c) = es.drop 1) ∧
    ((es.drop 1).length = N) ∧
    (∀ (bus' : AgentBus) (e' : AgentEnvelope), bus'.max_messages = N →
      ((bus'.publish e').queues
        (AgentBus.queue_key e'.recipient_agent_id e'.conversation_id)).length ≤ N) := by
  refine ⟨?_, ?_, ?_⟩
  · have hkeys' : ∀ e ∈ es,
        AgentBus.queue_key e.recipient_agent_id e.conversation_id =
          AgentBus.queue_key r c := by
      intro e he
      rw [(hkeys e he).1, (hkeys e he).2]
    have := foldl_publish_queues r c es bus hkeys' (by rw [hq]; simp)
    rw [hq] at this
    simpa [hmax, hlen] using this
  · rw [List.length_drop, hlen]
    omega
  · intro bus' e' hmax'
    rw [← hmax']
    exact publish_queue_length_le bus' e'

/-- C4 (witness): depth 2, three envelopes — the first is evicted. -/
theorem mailbox_bound_witness :
    (([⟨"c", "s", "a", []⟩, ⟨"c", "s2", "a", []⟩,
        ⟨"c", "s3", "a", []⟩].foldl AgentBus.publish (AgentBus.init 2)).queues
      (AgentBus.queue_key "a" "c")) =
      [⟨"c", "s2", "a", []⟩, ⟨"c", "s3", "a", []⟩] :=
  (mailbox_bound 2 "a" "c"
    [⟨"c", "s", "a", []⟩, ⟨"c", "s2", "a", []⟩, ⟨"c", "s3", "a", []⟩]
    (AgentBus.init 2) rfl rfl rfl
    (by intro e he; simp only [List.mem_cons, List.not_mem_nil, or_false] at he
        rcases he with h | h | h <;> subst h <;> exact ⟨rfl, rfl⟩)).1

/-- C6 (counterexample): the pairs ("a:b", "c") and ("a", "b:c") are
distinct, but their colon-joined queue keys collide, so publishing for the
first is visible to a consume of the second. -/
theorem mailbox_key_collision_cex :
    ((("a:b", "c") : String × String) ≠ ("a", "b:c")) ∧
    ((((AgentBus.init 100).publish ⟨"c", "s", "a:b", []⟩).consume "a" "b:c").1 =
      [⟨"c", "s", "a:b", []⟩]) ∧
    (((AgentBus.init 100).consume "a" "b:c").1 = []) :=
  ⟨by decide, rfl, rfl⟩

/-- C6 (amended): operations on two keys are independent whenever their
colon-joined key strings differ (distinct pairs can collide only when a
component contains the separator): a publish for (r, c) leaves a consume
of (r', c') unchanged, and a consume of (r, c) leaves (r', c')'s queue
unchanged. -/
theorem mailbox_key_independence (bus : AgentBus) (r c r' c' : String)
    (e : AgentEnvelope)
    (hk : AgentBus.queue_key r c ≠ AgentBus.queue_key r' c')
    (hr : e.recipient_agent_id = r) (hc : e.conversation_id = c) :
    (((bus.publish e).consume r' c').1 = (bus.consume r' c').1) ∧
    (((bus.consume r c).2).queues (AgentBus.queue_key r' c') =
      bus.queues (AgentBus.queue_key r' c')) := by
  have hq : (bus.publish e).queues (AgentBus.queue_key r' c') =
      bus.queues (AgentBus.queue_key r' c') := by
    refine publish_queues_other bus e _ ?_
    rw [hr, hc]
    exact hk.symm
  constructor
  · simp only [AgentBus.consume, hq]
    split <;> rfl
  · simp only [AgentBus.consume]
    split
    · rfl
    · simp only []
      rw [if_neg hk.symm]

/-- C6 (witness). -/
theorem mailbox_key_independence_witness :
    ((((AgentBus.init 100).publish ⟨"c", "s", "r", []⟩).consume "r2" "c2").1 =
      ((AgentBus.init 100).consume "r2" "c2").1) ∧
    ((((AgentBus.init 100).consume "r" "c").2).queues
      (AgentBus.queue_key "r2" "c2") =
      (AgentBus.init 100).queues (AgentBus.queue_key "r2" "c2")) :=
  mailbox_key_independence (AgentBus.init 100) "r" "c" "r2" "c2"
    ⟨"c", "s", "r", []⟩ (by decide) rfl rfl

/-- The exception-to-code table exactly as the specification words it:
`provider_not_configured` for missing credentials, `upstream_auth_error`
for upstream 401/403, `upstream_rate_limited` for 429,
`upstream_unavailable` for ≥ 500, `provider_error` for any other (or
absent) upstream status, `internal_error` for everything else. -/
def spec_error_code : GatewayExc → String
  | .providerNotConfigured _ => "provider_not_configured"
  | .providerError _ status _ =>
      match status with
      | some n =>
          if n = 401 ∨ n = 403 then "upstream_auth_error"
          else if n = 429 then "upstream_rate_limited"
          else if n ≥ 500 then "upstream_unavailable"
          else "provider_error"
      | Option.none => "provider_error"
  | .other _ => "internal_error"

/-- C2: `map_exception` is total — a plain function on the closed
exception type — and assigns to every exception exactly the taxonomy code
the specification's table prescribes. -/
theorem map_exception_matches_taxonomy (exc : GatewayExc) (provider : Option String) :
    (map_exception exc provider).code = spec_error_code exc := by
  cases exc with
  | providerNotConfigured m => rfl
  | other m => rfl
  | providerError m status rid =>
      cases status with
      | none => simp [map_exception, spec_error_code, statusTruthy]
      | some n =>
          simp only [map_exception, spec_error_code, statusTruthy,
            Option.some.injEq, Option.getD_some]
          split_ifs <;> first | rfl | omega | simp_all

/-- C5 (code evaluation at the failing input): with no default provider
configured, `"gpt-5-nano"` parses to the empty provider name, provider
resolution then fails with a bare unregistered-provider `ProviderError`,
and the error mapper turns that into code `provider_error` (HTTP 502) —
not `provider_required` as the specification and the repository's own
`scripts/ad_hoc_checks.py` require. -/
theorem missing_default_provider_behavior :
    (_parse_model_identifier "gpt-5-nano" "" = ("", "gpt-5-nano")) ∧
    (resolve_provider "" "" ["claude", "echo", "gemini", "openai"] =
      .error (.providerError "Provider '' is not registered" Option.none Option.none)) ∧
    ((map_exception (.providerError "Provider '' is not registered"
        Option.none Option.none) (some "")).code = "provider_error") ∧
    ((map_exception (.providerError "Provider '' is not registered"
        Option.none Option.none) (some "")).status_code = 502) ∧
    ("provider_error" ≠ "provider_required") :=
  ⟨by decide, rfl, rfl, rfl, by decide⟩

/-- C7 (counterexample): a message whose content is the empty string
flattens to the empty string — the textual projection of a message is not
always non-empty. -/
theorem flatten_empty_string_cex :
    Message.as_text ⟨Role.user, .str "", Option.none, Option.none⟩ = "" := rfl

/-- C7 (amended): structured image parts degrade to the fixed non-empty
placeholder `<image>` rather than to nothing — for every message whose
content is a dict carrying an image reference and no text or image-url
field, the flatten-to-text operation yields `"<image>"` — but the textual
projection of an arbitrary message may be empty (empty textual content
flattens to the empty string). -/
theorem image_part_flattens_to_placeholder (role : Role)
    (kvs : List (String × PyVal))
    (htext : dictGet kvs "text" = Option.none)
    (hiurl : dictGet kvs "image_url" = Option.none)
    (himg : hasKey kvs "image_base64" = true ∨ hasKey kvs "image" = true) :
    (Message.as_text ⟨role, .dict kvs, Option.none, Option.none⟩ = "<image>") ∧
    ("<image>" ≠ "") := by
  constructor
  · rw [Message.as_text]
    rw [_flatten_content_to_text, htext]
    rw [hiurl]
    rw [flattenDictRest]
    rcases himg with h | h <;> simp [h]
  · decide

/-- C7 (witness). -/
theorem image_part_flattens_to_placeholder_witness :
    (Message.as_text ⟨Role.user, .dict [("image_base64", .str "QUFB")],
      Option.none, Option.none⟩ = "<image>") ∧ ("<image>" ≠ "") :=
  image_part_flattens_to_placeholder Role.user [("image_base64", .str "QUFB")]
    rfl rfl (Or.inl rfl)

/-- C1: for every request served by the synthesized-stream path (any
provider other than `"openai"`) whose single adapter chat call succeeds,
the route emits exactly the three SSE events `response.created`,
`response.output_text.delta`, `response.completed` in that order, each of
the form `event: <name>\ndata: <compact-json>\n\n`, with the full output
text carried as the single chunk of the delta payload. -/
theorem synthesized_stream_event_sequence (response_id : String) (created_at : Int)
    (trace_id : String) (response : ChatResponse) :
    (∃ created delta completed : PyVal,
      (event_generator response_id created_at trace_id response =
        ["event: response.created\ndata: " ++ jsonDumps created ++ "\n\n",
         "event: response.output_text.delta\ndata: " ++ jsonDumps delta ++ "\n\n",
         "event: response.completed\ndata: " ++ jsonDumps completed ++ "\n\n"]) ∧
      (∃ kvs, delta = PyVal.dict kvs ∧
        dictGet kvs "output_text" = some (.list [.str response.output_text]))) ∧
    (∀ (chat : ChatRequest → Except GatewayExc ChatResponse) (bytes_in : Nat)
      (payload : ResponseRequest) (default_provider : String)
      (provider_name upstream_model : String),
      _parse_model_identifier payload.model default_provider =
        (provider_name, upstream_model) →
      ¬ bytes_in > MAX_REQUEST_BYTES →
      ¬ _estimate_tokens
          (_to_chat_request payload provider_name upstream_model).messages >
          MAX_INPUT_TOKENS →
      ¬ provider_name = "openai" →
      chat (_to_chat_request payload provider_name upstream_model) = .ok response →
      create_response chat bytes_in payload default_provider trace_id response_id
        created_at =
        .ok (.synthesized (event_generator response_id created_at trace_id response))) := by
  constructor
  · refine ⟨created_payload response_id created_at response,
      delta_payload response_id trace_id response,
      completed_payload response_id trace_id response, rfl, ?_⟩
    exact ⟨_, rfl, rfl⟩
  · intro chat bytes_in payload default_provider provider_name upstream_model
      hparse hbytes htok hprov hchat
    simp only [create_response, hparse, if_neg hbytes, if_neg htok, if_neg hprov, hchat]

/-- C1 (witness): a stub adapter returning a fixed response drives the
synthesized path end to end. -/
theorem synthesized_stream_event_sequence_witness :
    create_response
      (fun _ => .ok ⟨"echo", "m", "pong", .dict [], "t", Option.none, Option.none,
        Option.none⟩) 10
      ⟨"echo:m", [⟨Role.user, .str "hi"⟩], Option.none, Option.none, Option.none,
        Option.none, Option.none⟩ "echo" "t" "r" 0 =
      .ok (.synthesized (event_generator "r" 0 "t"
        ⟨"echo", "m", "pong", .dict [], "t", Option.none, Option.none,
          Option.none⟩)) :=
  (synthesized_stream_event_sequence "r" 0 "t"
    ⟨"echo", "m", "pong", .dict [], "t", Option.none, Option.none, Option.none⟩).2
    (fun _ => .ok ⟨"echo", "m", "pong", .dict [], "t", Option.none, Option.none,
      Option.none⟩) 10
    ⟨"echo:m", [⟨Role.user, .str "hi"⟩], Option.none, Option.none, Option.none,
      Option.none, Option.none⟩ "echo" "echo" "m" rfl (by decide) (by decide)
    (by decide) rfl

/-- The token estimate is the total flattened character count over four
(the guard in the source skips empty texts, which contribute zero). -/
theorem estimate_tokens_eq_sum (messages : List Message) :
    _estimate_tokens messages =
      ((messages.map (fun m => m.as_text.length)).sum) / 4 := by
  have aux : ∀ (msgs : List Message) (acc : Nat),
      msgs.foldl
        (fun total_chars msg =>
          let text := msg.as_text
          if !text.isEmpty then total_chars + text.length else total_chars) acc =
        acc + (msgs.map (fun m => m.as_text.length)).sum := by
    intro msgs
    induction msgs with
    | nil => intro acc; simp
    | cons m ms ih =>
        intro acc
        simp only [List.foldl_cons, List.map_cons, List.sum_cons, ih]
        by_cases h : m.as_text.isEmpty
        · have hz : m.as_text.length = 0 := by
            rw [String.isEmpty_iff] at h
            rw [h]
            rfl
          simp [h, hz]
        · simp only [h, Bool.not_false, if_pos]
          omega
  rw [_estimate_tokens, aux, Nat.zero_add]

/-- C9: both request guards fire before the adapter is consulted — the
result does not depend on the `chat` function at all.  A request whose
serialized size exceeds the byte ceiling is rejected with
`body_too_large`; one whose estimated token count (total flattened
character count over four, rounded down) exceeds the token ceiling is
rejected with `input_too_large`. -/
theorem guards_reject_before_adapter
    (chat : ChatRequest → Except GatewayExc ChatResponse) (bytes_in : Nat)
    (payload : ResponseRequest) (default_provider trace_id response_id : String)
    (created_at : Int) (provider_name upstream_model : String)
    (hparse : _parse_model_identifier payload.model default_provider =
      (provider_name, upstream_model)) :
    (bytes_in > MAX_REQUEST_BYTES →
      create_response chat bytes_in payload default_provider trace_id response_id
        created_at = .error body_too_large_error) ∧
    (bytes_in ≤ MAX_REQUEST_BYTES →
      (((_to_chat_request payload provider_name upstream_model).messages.map
            (fun m => m.as_text.length)).sum / 4 > MAX_INPUT_TOKENS) →
      create_response chat bytes_in payload default_provider trace_id response_id
        created_at = .error input_too_large_error) := by
  constructor
  · intro h
    rw [create_response, if_pos h]
  · intro hb he
    have hb' : ¬ bytes_in > MAX_REQUEST_BYTES := by omega
    have he' : _estimate_tokens
        (_to_chat_request payload provider_name upstream_model).messages >
        MAX_INPUT_TOKENS := by
      rw [estimate_tokens_eq_sum]
      exact he
    simp only [create_response, hparse, if_neg hb', if_pos he']

/-- C9 (witness): a 300000-byte body is rejected with `body_too_large`; a
24004-character message (estimate 6001 tokens) is rejected with
`input_too_large`; the stub adapter is never consulted. -/
theorem guards_reject_before_adapter_witness :
    (create_response (fun _ => .error (.other "stub")) 300000
        ⟨"echo:m", [⟨Role.user, .str "hi"⟩], Option.none, Option.none, Option.none,
          Option.none, Option.none⟩ "echo" "t" "r" 0 = .error body_too_large_error) ∧
    (create_response (fun _ => .error (.other "stub")) 10
        ⟨"echo:m", [⟨Role.user, .str (String.mk (List.replicate 24004 'a'))⟩],
          Option.none, Option.none, Option.none, Option.none, Option.none⟩
        "echo" "t" "r" 0 = .error input_too_large_error) := by
  have hsum : ∀ (s : String),
      ((_to_chat_request
        ⟨"echo:m", [⟨Role.user, .str s⟩], Option.none, Option.none, Option.none,
          Option.none, Option.none⟩ "echo" "m").messages.map
          (fun m => m.as_text.length)).sum = s.length := by
    intro s
    simp [_to_chat_request, _convert_message, _normalize_content, Message.as_text,
      _flatten_content_to_text]
  have he0 : ((_to_chat_request
      ⟨"echo:m", [⟨Role.user, .str (String.mk (List.replicate 24004 'a'))⟩],
        Option.none, Option.none, Option.none, Option.none, Option.none⟩
      "echo" "m").messages.map (fun m => m.as_text.length)).sum / 4 >
      MAX_INPUT_TOKENS := by
    rw [hsum]
    have hlen : (String.mk (List.replicate 24004 'a')).length = 24004 := by
      show (List.replicate 24004 'a').length = 24004
      rw [List.length_replicate]
    rw [hlen]
    norm_num [MAX_INPUT_TOKENS]
  constructor
  · exact (guards_reject_before_adapter _ 300000
      ⟨"echo:m", [⟨Role.user, .str "hi"⟩], Option.none, Option.none, Option.none,
        Option.none, Option.none⟩ "echo" "t" "r" 0 "echo" "m" rfl).1
      (by norm_num [MAX_REQUEST_BYTES])
  · exact (guards_reject_before_adapter _ 10
      ⟨"echo:m", [⟨Role.user, .str (String.mk (List.replicate 24004 'a'))⟩],
        Option.none, Option.none, Option.none, Option.none, Option.none⟩
      "echo" "t" "r" 0 "echo" "m" rfl).2
      (by norm_num [MAX_REQUEST_BYTES]) he0

/-- C10: a content list with at least one structured chunk is preserved
verbatim (order included); a list with none is collapsed to the single
newline-joined string of the chunks' texts. -/
theorem normalize_content_structured_cases (entries : List PyVal) :
    ((∃ e ∈ entries, _is_structured_chunk e = true) →
      _normalize_content (.list entries) = .list entries) ∧
    ((∀ e ∈ entries, _is_structured_chunk e = false) →
      _normalize_content (.list entries) =
        .str (String.intercalate "\n" (entries.map chunkText))) := by
  constructor
  · intro h
    have ha : entries.any _is_structured_chunk = true := by
      rw [List.any_eq_true]
      obtain ⟨e, he, hs⟩ := h
      exact ⟨e, he, hs⟩
    simp [_normalize_content, ha]
  · intro h
    have ha : entries.any _is_structured_chunk = false := by
      rw [List.any_eq_false]
      intro e he
      simp [h e he]
    simp [_normalize_content, ha]

/-- C10 (witness): a text+image list is preserved; a text-only list
collapses to `"a\nb"`. -/
theorem normalize_content_structured_cases_witness :
    (_normalize_content (.list
        [.dict [("type", .str "input_text"), ("text", .str "Describe this image.")],
         .dict [("type", .str "input_image"),
           ("image_url", .dict [("url", .str "https://example.com/img.png")])]]) =
      .list
        [.dict [("type", .str "input_text"), ("text", .str "Describe this image.")],
         .dict [("type", .str "input_image"),
           ("image_url", .dict [("url", .str "https://example.com/img.png")])]]) ∧
    (_normalize_content (.list [.dict [("text", .str "a")], .str "b"]) = .str "a\nb") := by
  constructor
  · exact (normalize_content_structured_cases _).1
      ⟨.dict [("type", .str "input_text"), ("text", .str "Describe this image.")],
        by simp, rfl⟩
  · rw [(normalize_content_structured_cases [.dict [("text", .str "a")], .str "b"]).2 ?_]
    · rfl
    · intro e he
      simp only [List.mem_cons, List.not_mem_nil, or_false] at he
      rcases he with h | h <;> subst h <;> rfl

/-- C8 (counterexample): a successful Gemini chat call whose upstream
response carries an `x-request-id` header still yields a `ChatResponse`
with `provider_request_id = None` — the identifier is not propagated on
the success path. -/
theorem gemini_success_drops_request_id_cex :
    (Gemini.chat (some "key")
        ⟨"gemini", "gemini-pro", [], Option.none, Option.none, Option.none,
          Option.none, Option.none⟩ "t"
        ⟨200, [("x-request-id", "req-42")],
          [("candidates", .list [.dict [("content", .dict [("parts",
              .list [.dict [("text", .str "hello")]])])]])], ""⟩ =
      .ok ⟨"gemini", "gemini-pro", "hello", .dict [], "t", Option.none,
        Option.none, Option.none⟩) ∧
    (headerGet [("x-request-id", "req-42")] "x-request-id" = some "req-42") :=
  ⟨rfl, rfl⟩

/-- C8 (amended): on an upstream failure every network-backed adapter
propagates the upstream request identifier into
`ProviderError.provider_request_id` — Gemini and Claude try several known
header names in a fixed priority order, OpenAI reads the single header
`x-request-id`; on a successful call only OpenAI propagates it into
`ChatResponse.provider_request_id`, while Gemini and Claude leave the
field `None`; a missing identifier is never an error (the lookups simply
yield `None`). -/
theorem provider_request_id_propagation (api_key : String) (req : ChatRequest)
    (tid : String) (resp : UpstreamResponse) (hkey : ¬ api_key = "") :
    (resp.status_code ≥ 400 →
      (OpenAIProvider.chat (some api_key) req tid resp =
        .error (.providerError
          ("OpenAI error " ++ toString resp.status_code ++ ": " ++ resp.text)
          (some (resp.status_code : Int)) (headerGet resp.headers "x-request-id"))) ∧
      (Gemini.chat (some api_key) req tid resp =
        .error (.providerError
          ("Gemini error " ++ toString resp.status_code ++ ": " ++
            Gemini._truncate resp.text)
          (some (resp.status_code : Int)) (Gemini._provider_request_id resp))) ∧
      (Claude.chat (some api_key) req tid resp =
        .error (.providerError
          ("Claude error " ++ toString resp.status_code ++ ": " ++
            Claude._truncate resp.text)
          (some (resp.status_code : Int)) (Claude._provider_request_id resp)))) ∧
    (resp.status_code < 400 →
      ((OpenAIProvider.chat (some api_key) req tid resp).toOption.map
          ChatResponse.provider_request_id =
        some (headerGet resp.headers "x-request-id")) ∧
      ((Gemini.chat (some api_key) req tid resp).toOption.map
          ChatResponse.provider_request_id = some Option.none) ∧
      ((Claude.chat (some api_key) req tid resp).toOption.map
          ChatResponse.provider_request_id = some Option.none)) := by
  have hk : ¬ (some api_key).getD "" = "" := by simpa using hkey
  constructor
  · intro h400
    refine ⟨?_, ?_, ?_⟩
    · rw [OpenAIProvider.chat, if_neg hk, if_pos h400]
    · simp only [Gemini.chat, if_neg hk, if_pos h400]
    · rw [Claude.chat, if_neg hk, if_pos h400]
  · intro h200
    have h400 : ¬ resp.status_code ≥ 400 := by omega
    refine ⟨?_, ?_, ?_⟩
    · rw [OpenAIProvider.chat, if_neg hk, if_neg h400]
      rfl
    · simp only [Gemini.chat, if_neg hk, if_neg h400]
      rfl
    · rw [Claude.chat, if_neg hk, if_neg h400]
      rfl

/-- C8 (witness): a 500-status response with an `x-request-id` header, and
a 200-status response, each through all three adapters. -/
theorem provider_request_id_propagation_witness :
    (OpenAIProvider.chat (some "k")
        ⟨"openai", "m", [], Option.none, Option.none, Option.none, Option.none,
          Option.none⟩ "t" ⟨500, [("x-request-id", "abc")], [], "boom"⟩ =
      .error (.providerError ("OpenAI error " ++ toString (500 : Nat) ++ ": " ++ "boom")
        (some ((500 : Nat) : Int))
        (headerGet [("x-request-id", "abc")] "x-request-id"))) ∧
    ((Gemini.chat (some "k")
        ⟨"openai", "m", [], Option.none, Option.none, Option.none, Option.none,
          Option.none⟩ "t" ⟨200, [("x-request-id", "abc")], [], ""⟩).toOption.map
      ChatResponse.provider_request_id = some Option.none) :=
  ⟨((provider_request_id_propagation "k"
      ⟨"openai", "m", [], Option.none, Option.none, Option.none, Option.none,
        Option.none⟩ "t" ⟨500, [("x-request-id", "abc")], [], "boom"⟩
      (by decide)).1 (by decide)).1,
   ((provider_request_id_propagation "k"
      ⟨"openai", "m", [], Option.none, Option.none, Option.none, Option.none,
        Option.none⟩ "t" ⟨200, [("x-request-id", "abc")], [], ""⟩
      (by decide)).2 (by decide)).2.1⟩

end Gateway
